import Mathlib

/-!
Verification of the PSKC document-to-object mapping layer (pskc/parse.py).

The embedding models the XML element trees produced by `xml.etree.ElementTree`
as a nested inductive type, the module-level namespace registry as an
association list, the typed element accessors `g_e_v` / `g_e_i` / `g_e_d` as
functions into `Except`, and `PSKC.__init__` as a function from an abstract
document source to `Except PyError PSKC`.  Python exceptions raised by the
code are modelled by the `PyError` type.
-/

/-- Exceptions that the parsing layer can raise.  `documentError` stands for
the errors of `ElementTree.parse` on an unreadable or malformed source
(`xml.etree.ElementTree.ParseError` / `OSError`; the spec's DocumentError);
`syntaxError` for the `SyntaxError` the element-path compiler raises on an
unregistered namespace prefix; `valueError` for the `ValueError` of `int()`
on a non-integer string (the spec's ParseError for integers); `parseError`
for an unparsable date/time (the spec's ParseError for timestamps); and
`attributeError` for `None.strip()` when an element has no text. -/
inductive PyError : Type where
  | documentError : PyError
  | syntaxError : PyError
  | valueError : PyError
  | parseError : PyError
  | attributeError : PyError
deriving DecidableEq

/-- An XML element as exposed by `xml.etree.ElementTree`: a tag (already in
the fully qualified form `\x7buri\x7dlocal` when namespaced), an attribute
dictionary, optional text content (`None` for an empty element such as
`<pskc:Foo/>`), and the list of child elements in document order. -/
inductive Element : Type where
  | mk : String → List (String × String) → Option String → List Element → Element

/-- The tag of an element. -/
def Element.tag : Element → String
  | .mk t _ _ _ => t

/-- The attribute dictionary of an element, as an association list. -/
def Element.attrib : Element → List (String × String)
  | .mk _ a _ _ => a

/-- The text content of an element (`none` models Python's `None`). -/
def Element.text : Element → Option String
  | .mk _ _ x _ => x

/-- The child elements, in document order. -/
def Element.children : Element → List Element
  | .mk _ _ _ c => c

/-- Lookup in an attribute dictionary, modelling `attrib.get(key)`. -/
def attrGet (e : Element) (k : String) : Option String :=
  e.attrib.lookup k

/-- The module-level namespace registry of pskc/parse.py: short prefixes
mapped to the XML namespace URIs relevant for PSKC. -/
def namespaces : List (String × String) :=
  [ ("pskc", "urn:ietf:params:xml:ns:keyprov:pskc"),
    ("ds", "http://www.w3.org/2000/09/xmldsig#"),
    ("xenc", "http://www.w3.org/2001/04/xmlenc#"),
    ("xenc11", "http://www.w3.org/2009/xmlenc11#"),
    ("pkcs5", "http://www.rsasecurity.com/rsalabs/pkcs/schemas/pkcs-5v2-0#") ]

/-- One step of a namespace-qualified element path, such as the
`pskc:EncryptionKey` in `find('pskc:EncryptionKey', namespaces=namespaces)`:
an optional namespace short prefix and a local name. -/
structure Seg : Type where
  pfx : Option String
  loc : String
deriving DecidableEq

/-- Build a fully qualified tag `\x7buri\x7dlocal` from a namespace URI and a
local name, the form `ElementTree` uses internally. -/
def qname (uri loc : String) : String :=
  "\x7b" ++ uri ++ "\x7d" ++ loc

/-- Resolve one path step against the namespace registry, as the
`ElementTree` path compiler does: an unprefixed name is matched as-is, a
registered prefix is replaced by its URI, and an unregistered prefix raises
`SyntaxError` before any matching is attempted. -/
def resolveSeg (s : Seg) : Except PyError String :=
  match s.pfx with
  | none => .ok s.loc
  | some p =>
    match namespaces.lookup p with
    | some uri => .ok (qname uri s.loc)
    | none => .error .syntaxError

/-- All elements reached from `e` by following the resolved path, in
document order: `ElementTree`'s `findall` semantics for a plain child path,
where each step keeps the children whose tag equals the resolved tag. -/
def findallResolved (e : Element) : List String → List Element
  | [] => [e]
  | t :: rest =>
    (e.children.filter (fun c => c.tag == t)).flatMap
      (fun c => findallResolved c rest)

/-- The `findall(match, namespaces=namespaces)` call: compile every path
step (raising on an unregistered prefix) and collect all matches in
document order. -/
def findall (e : Element) (path : List Seg) : Except PyError (List Element) := do
  let ts ← path.mapM resolveSeg
  pure (findallResolved e ts)

/-- The `find(match, namespaces=namespaces)` call: like `findall` but
returning the first match in document order, or `none` when no element
matches. -/
def find (e : Element) (path : List Seg) : Except PyError (Option Element) := do
  let ts ← path.mapM resolveSeg
  pure (findallResolved e ts).head?

/-- Python's `str.strip()`: remove whitespace characters from both ends of
the string. -/
def pyStrip (s : String) : String :=
  ⟨((s.data.dropWhile Char.isWhitespace).reverse.dropWhile Char.isWhitespace).reverse⟩

/-- Python `int(s)` on a stripped string restricted to base 10: optional
sign, then decimal digits where single underscores may stand between two
digits; `none` models the `ValueError` raised on any other string. -/
def pyDigitsAux : List Char → Nat → Option Nat
  | [], acc => some acc
  | '_' :: c :: rest, acc =>
    if c.isDigit then pyDigitsAux rest (acc * 10 + (c.toNat - 48)) else none
  | c :: rest, acc =>
    if c.isDigit then pyDigitsAux rest (acc * 10 + (c.toNat - 48)) else none

/-- Digit-run parser for `pyInt`: requires a leading digit. -/
def pyDigits (cs : List Char) : Option Nat :=
  match cs with
  | [] => none
  | c :: _ => if c.isDigit then pyDigitsAux cs 0 else none

/-- Python's `int()` applied to a string: strips surrounding whitespace,
accepts an optional `+` or `-` sign followed by base-10 digits, and returns
`none` where Python raises `ValueError`. -/
def pyInt (s : String) : Option Int :=
  match (pyStrip s).toList with
  | '+' :: rest => (pyDigits rest).map Int.ofNat
  | '-' :: rest => (pyDigits rest).map (fun n => -(Int.ofNat n))
  | cs => (pyDigits cs).map Int.ofNat

/-- The function `g_e_v(tree, match)` of pskc/parse.py: find the element;
if absent return `None`; otherwise return `element.text.strip()`, which
raises `AttributeError` when the text is `None`. -/
def g_e_v (tree : Element) (m : List Seg) : Except PyError (Option String) := do
  let element ← find tree m
  match element with
  | some e =>
    match e.text with
    | some t => pure (some (pyStrip t))
    | none => .error .attributeError
  | none => pure none

/-- The function `g_e_i(tree, match)` of pskc/parse.py: find the element;
if absent return `None`; otherwise return `int(element.text.strip())`,
raising `AttributeError` on `None` text and `ValueError` on a non-integer
string. -/
def g_e_i (tree : Element) (m : List Seg) : Except PyError (Option Int) := do
  let element ← find tree m
  match element with
  | some e =>
    match e.text with
    | some t =>
      match pyInt (pyStrip t) with
      | some n => pure (some n)
      | none => .error .valueError
    | none => .error .attributeError
  | none => pure none

/-- The function `g_e_d(tree, match)` of pskc/parse.py: find the element;
if absent return `None`; otherwise return
`dateutil.parser.parse(element.text.strip())`, raising `AttributeError` on
`None` text.  The external dateutil parser is a parameter `dparse`. -/
def g_e_d {α : Type} (dparse : String → Except PyError α) (tree : Element)
    (m : List Seg) : Except PyError (Option α) := do
  let element ← find tree m
  match element with
  | some e =>
    match e.text with
    | some t =>
      match dparse (pyStrip t) with
      | .ok d => pure (some d)
      | .error err => .error err
    | none => .error .attributeError
  | none => pure none

/-- Modelled from the spec: the Encryption Descriptor constructor
`(element_or_absent) -> EncryptionDescriptor` of pskc/encryption.py, which
is not under src/.  The descriptor wraps the element it was constructed
from; an absent element (`none`) yields the descriptor's unset state. -/
structure Encryption : Type where
  element : Option Element

/-- Modelled from the spec: the MAC Descriptor constructor
`(container_reference, element_or_absent) -> MACDescriptor` of pskc/mac.py,
which is not under src/.  The descriptor wraps the element it was
constructed from; an absent element yields the unset state.  The container
back-reference is a non-owning association used only later for decryption
context, so it is not part of the structural state modelled here. -/
structure MAC : Type where
  element : Option Element

/-- Modelled from the spec: the Key Package constructor
`(container_reference, element) -> KeyPackage` of pskc/key.py, which is not
under src/.  The entry wraps the `KeyPackage` element it was constructed
from; the container back-reference is a non-owning association not part of
the structural state modelled here. -/
structure Key : Type where
  package : Element

/-- An abstract document source handed to `PSKC(filename)`: either a
readable source holding well-formed XML with the given root element, or a
source that cannot be read, or one whose contents are not well-formed
XML. -/
inductive Source : Type where
  | ok : Element → Source
  | ioError : Source
  | malformed : Source

/-- The external `ElementTree.parse` call followed by `tree.getroot()`:
returns the root element of a well-formed readable source and raises
(`OSError` / `xml.etree.ElementTree.ParseError`, the spec's DocumentError)
otherwise. -/
def elementTreeParse : Source → Except PyError Element
  | .ok root => .ok root
  | .ioError => .error .documentError
  | .malformed => .error .documentError

/-- The container object built by `PSKC.__init__`. -/
structure PSKC : Type where
  version : Option String
  id : Option String
  encryption : Encryption
  mac : MAC
  keys : List Key

/-- The path literal `pskc:EncryptionKey`. -/
def encKeyPath : List Seg := [⟨some "pskc", "EncryptionKey"⟩]

/-- The path literal `pskc:MACMethod`. -/
def macMethodPath : List Seg := [⟨some "pskc", "MACMethod"⟩]

/-- The path literal `pskc:KeyPackage`. -/
def keyPackagePath : List Seg := [⟨some "pskc", "KeyPackage"⟩]

/-- The constructor `PSKC.__init__(filename)` of pskc/parse.py: parse the
source into a tree, take the root, read the `Version` and `Id` attributes,
build the Encryption descriptor from the first `pskc:EncryptionKey` child,
the MAC descriptor from the first `pskc:MACMethod` child, and one Key per
`pskc:KeyPackage` child in document order.  Any exception propagates and no
container object is produced. -/
def PSKC.parse (src : Source) : Except PyError PSKC := do
  let container ← elementTreeParse src
  let encElement ← find container encKeyPath
  let macElement ← find container macMethodPath
  let packages ← findall container keyPackagePath
  pure { version := attrGet container "Version",
         id := attrGet container "Id",
         encryption := Encryption.mk encElement,
         mac := MAC.mk macElement,
         keys := packages.map Key.mk }

/-- The `pskc:EncryptionKey` children of a root element, in document
order. -/
def encKeyChildren (root : Element) : List Element :=
  root.children.filter
    (fun c => c.tag == qname "urn:ietf:params:xml:ns:keyprov:pskc" "EncryptionKey")

/-- The `pskc:MACMethod` children of a root element, in document order. -/
def macChildren (root : Element) : List Element :=
  root.children.filter
    (fun c => c.tag == qname "urn:ietf:params:xml:ns:keyprov:pskc" "MACMethod")

/-- The `pskc:KeyPackage` children of a root element, in document order. -/
def kpChildren (root : Element) : List Element :=
  root.children.filter
    (fun c => c.tag == qname "urn:ietf:params:xml:ns:keyprov:pskc" "KeyPackage")

/-! ### General lemmas about the lookup primitives -/

/-- A one-step resolved path selects exactly the matching children, in
document order. -/
theorem findallResolved_single (e : Element) (t : String) :
    findallResolved e [t] = e.children.filter (fun c => c.tag == t) := by
  simp [findallResolved]

/-- On a single `pskc`-prefixed step, `find` returns the first matching
child in document order (or `none`). -/
theorem find_pskc (root : Element) (loc : String) :
    find root [⟨some "pskc", loc⟩] =
      .ok (root.children.filter
        (fun c => c.tag == qname "urn:ietf:params:xml:ns:keyprov:pskc" loc)).head? := by
  simp [find, List.mapM, resolveSeg, namespaces, findallResolved_single, bind,
    Except.bind, pure, Except.pure, List.mapM.loop]

/-- On a single `pskc`-prefixed step, `findall` returns all matching
children in document order. -/
theorem findall_pskc (root : Element) (loc : String) :
    findall root [⟨some "pskc", loc⟩] =
      .ok (root.children.filter
        (fun c => c.tag == qname "urn:ietf:params:xml:ns:keyprov:pskc" loc)) := by
  simp [findall, List.mapM, resolveSeg, namespaces, findallResolved_single, bind,
    Except.bind, pure, Except.pure, List.mapM.loop]

/-- Characterization of `PSKC.parse` on a readable well-formed source: it
always succeeds, reading the root attributes and taking the first
`EncryptionKey` and `MACMethod` children and all `KeyPackage` children in
document order. -/
theorem parse_ok (root : Element) :
    PSKC.parse (Source.ok root) =
      .ok { version := attrGet root "Version",
            id := attrGet root "Id",
            encryption := Encryption.mk (encKeyChildren root).head?,
            mac := MAC.mk (macChildren root).head?,
            keys := (kpChildren root).map Key.mk } := by
  simp [PSKC.parse, elementTreeParse, encKeyPath, macMethodPath, keyPackagePath,
    find_pskc, findall_pskc, encKeyChildren, macChildren, kpChildren,
    bind, Except.bind, pure, Except.pure]

/-- The only error `resolveSeg` can raise is `syntaxError`. -/
theorem resolveSeg_error_eq (a : Seg) (e : PyError)
    (h : resolveSeg a = .error e) : e = .syntaxError := by
  cases hpa : a.pfx with
  | none => simp [resolveSeg, hpa] at h
  | some p =>
    cases hl : namespaces.lookup p with
    | some uri => simp [resolveSeg, hpa, hl] at h
    | none =>
      simp [resolveSeg, hpa, hl] at h
      exact h.symm

/-- Compiling a path that contains a step with an unregistered prefix
raises `syntaxError`. -/
theorem mapM_resolveSeg_error (path : List Seg) (s : Seg) (hs : s ∈ path)
    (p : String) (hp : s.pfx = some p) (hreg : namespaces.lookup p = none) :
    path.mapM resolveSeg = .error .syntaxError := by
  induction path with
  | nil => cases hs
  | cons a rest ih =>
    rw [List.mapM_cons]
    rcases List.mem_cons.mp hs with h | h
    · subst h
      simp [resolveSeg, hp, hreg, bind, Except.bind]
    · cases ha : resolveSeg a with
      | error e =>
        have he := resolveSeg_error_eq a e ha
        subst he
        simp [ha, bind, Except.bind]
      | ok t =>
        have ih2 := ih h
        simp [List.mapM] at ih2
        simp [ha, bind, Except.bind, List.mapM, ih2]

/-! ### Sample documents used by the witnesses -/

/-- The PSKC 1.0 namespace URI. -/
def pskcNS : String := "urn:ietf:params:xml:ns:keyprov:pskc"

/-- A `pskc:Foo` element whose text is `" 42 "`. -/
def elInt : Element := .mk (qname pskcNS "Foo") [] (some " 42 ") []

/-- A `pskc:Foo` element whose text is `"abc"`. -/
def elAbc : Element := .mk (qname pskcNS "Foo") [] (some "abc") []

/-- An empty `pskc:Foo` element (`<pskc:Foo/>`), whose text is `None`. -/
def elNil : Element := .mk (qname pskcNS "Foo") [] none []

/-- A document root holding `elInt`. -/
def treeInt : Element := .mk (qname pskcNS "KeyContainer") [] none [elInt]

/-- A document root holding `elAbc`. -/
def treeAbc : Element := .mk (qname pskcNS "KeyContainer") [] none [elAbc]

/-- A document root holding `elNil`. -/
def treeNil : Element := .mk (qname pskcNS "KeyContainer") [] none [elNil]

/-- A bare document root with no children and no attributes. -/
def treeBare : Element := .mk (qname pskcNS "KeyContainer") [] none []

/-- The path `pskc:Foo`. -/
def fooPath : List Seg := [⟨some "pskc", "Foo"⟩]

/-- A path using the unregistered prefix `foo`. -/
def badPath : List Seg := [⟨some "foo", "Bar"⟩]

/-- A first `pskc:KeyPackage` element. -/
def kp1 : Element := .mk (qname pskcNS "KeyPackage") [("n", "1")] none []

/-- A second `pskc:KeyPackage` element. -/
def kp2 : Element := .mk (qname pskcNS "KeyPackage") [("n", "2")] none []

/-- A root with `Version` and `Id` attributes and two `KeyPackage`
children. -/
def sampleRoot : Element :=
  .mk (qname pskcNS "KeyContainer") [("Version", "1.0"), ("Id", "abc123")] none
    [kp1, kp2]

/-- Two distinct `pskc:EncryptionKey` elements. -/
def ek1 : Element := .mk (qname pskcNS "EncryptionKey") [("n", "1")] none []

/-- A second `pskc:EncryptionKey` element. -/
def ek2 : Element := .mk (qname pskcNS "EncryptionKey") [("n", "2")] none []

/-- A first `pskc:MACMethod` element. -/
def mm1 : Element := .mk (qname pskcNS "MACMethod") [("n", "1")] none []

/-- A second `pskc:MACMethod` element. -/
def mm2 : Element := .mk (qname pskcNS "MACMethod") [("n", "2")] none []

/-- A root with duplicated `EncryptionKey` and `MACMethod` children. -/
def multiRoot : Element :=
  .mk (qname pskcNS "KeyContainer") [] none [ek1, ek2, mm1, mm2]

/-! ### Claim theorems -/

/-- Claim C1: for every well-formed document, the parsed container's keys
sequence has exactly one entry per `KeyPackage` child of the root, and the
i-th entry is constructed from the i-th `KeyPackage` element in document
order, with no reordering, deduplication, or sorting. -/
theorem C1_keys_match_document_order (root : Element) (P : PSKC)
    (h : PSKC.parse (Source.ok root) = .ok P) :
    P.keys.length = (kpChildren root).length ∧
    P.keys = (kpChildren root).map Key.mk := by
  rw [parse_ok] at h
  injection h with h
  subst h
  simp

/-- Witness for C1 on a document with two `KeyPackage` children. -/
theorem C1_keys_match_document_order_witness :
    (PSKC.mk (some "1.0") (some "abc123") (Encryption.mk none) (MAC.mk none)
        [Key.mk kp1, Key.mk kp2]).keys.length = (kpChildren sampleRoot).length ∧
    (PSKC.mk (some "1.0") (some "abc123") (Encryption.mk none) (MAC.mk none)
        [Key.mk kp1, Key.mk kp2]).keys = (kpChildren sampleRoot).map Key.mk :=
  C1_keys_match_document_order sampleRoot
    (PSKC.mk (some "1.0") (some "abc123") (Encryption.mk none) (MAC.mk none)
      [Key.mk kp1, Key.mk kp2]) rfl

/-- Claim C2: the integer accessor returns the parsed integer on valid
base-10 text, fails with the conversion error (`ValueError`, the spec's
ParseError) on invalid text, and returns the absence indicator without
error when no element matches. -/
theorem C2_int_accessor (tree : Element) (path : List Seg) :
    (∀ e t n, find tree path = .ok (some e) → e.text = some t →
        pyInt (pyStrip t) = some n → g_e_i tree path = .ok (some n)) ∧
    (∀ e t, find tree path = .ok (some e) → e.text = some t →
        pyInt (pyStrip t) = none → g_e_i tree path = .error .valueError) ∧
    (find tree path = .ok none → g_e_i tree path = .ok none) := by
  refine ⟨?_, ?_, ?_⟩
  · intro e t n hf ht hi
    simp [g_e_i, hf, ht, hi, bind, Except.bind, pure, Except.pure]
  · intro e t hf ht hi
    simp [g_e_i, hf, ht, hi, bind, Except.bind, pure, Except.pure]
  · intro hf
    simp [g_e_i, hf, bind, Except.bind, pure, Except.pure]

/-- Witness for C2 at text `" 42 "`, text `"abc"`, and a missing
element. -/
theorem C2_int_accessor_witness :
    g_e_i treeInt fooPath = .ok (some 42) ∧
    g_e_i treeAbc fooPath = .error .valueError ∧
    g_e_i treeBare fooPath = .ok none :=
  ⟨(C2_int_accessor treeInt fooPath).1 elInt " 42 " 42 rfl rfl rfl,
   (C2_int_accessor treeAbc fooPath).2.1 elAbc "abc" rfl rfl rfl,
   (C2_int_accessor treeBare fooPath).2.2 rfl⟩

/-- Claim C3: a well-formed document with no `EncryptionKey`, `MACMethod`,
or `KeyPackage` children parses successfully into a container whose
encryption and mac descriptors are present but built from the absence
marker (unset state) and whose keys sequence is empty. -/
theorem C3_empty_document (root : Element)
    (h1 : encKeyChildren root = []) (h2 : macChildren root = [])
    (h3 : kpChildren root = []) :
    PSKC.parse (Source.ok root) =
      .ok { version := attrGet root "Version", id := attrGet root "Id",
            encryption := Encryption.mk none, mac := MAC.mk none,
            keys := [] } := by
  rw [parse_ok, h1, h2, h3]
  rfl

/-- Witness for C3 on a bare root element. -/
theorem C3_empty_document_witness :
    encKeyChildren treeBare = [] ∧ macChildren treeBare = [] ∧
    kpChildren treeBare = [] ∧
    PSKC.parse (Source.ok treeBare) =
      .ok { version := none, id := none, encryption := Encryption.mk none,
            mac := MAC.mk none, keys := [] } :=
  ⟨rfl, rfl, rfl, C3_empty_document treeBare rfl rfl rfl⟩

/-- Claim C4: a source that cannot be read or is not well-formed XML makes
the parse fail with the document error, producing no container object. -/
theorem C4_document_error :
    PSKC.parse Source.malformed = .error .documentError ∧
    PSKC.parse Source.ioError = .error .documentError :=
  ⟨rfl, rfl⟩

/-- Claim C5: when the root has two or more `EncryptionKey` children, the
encryption descriptor is built from the first one in document order, and
analogously for `MACMethod`. -/
theorem C5_first_match_wins (root : Element) (P : PSKC)
    (h : PSKC.parse (Source.ok root) = .ok P) :
    (∀ e1 e2 rest, encKeyChildren root = e1 :: e2 :: rest →
        P.encryption = Encryption.mk (some e1)) ∧
    (∀ m1 m2 rest, macChildren root = m1 :: m2 :: rest →
        P.mac = MAC.mk (some m1)) := by
  rw [parse_ok] at h
  injection h with h
  subst h
  constructor
  · intro e1 e2 rest he
    simp [he]
  · intro m1 m2 rest hm
    simp [hm]

/-- Witness for C5 on a root with two `EncryptionKey` and two `MACMethod`
children. -/
theorem C5_first_match_wins_witness :
    (PSKC.mk none none (Encryption.mk (some ek1)) (MAC.mk (some mm1))
        []).encryption = Encryption.mk (some ek1) ∧
    (PSKC.mk none none (Encryption.mk (some ek1)) (MAC.mk (some mm1))
        []).mac = MAC.mk (some mm1) :=
  ⟨(C5_first_match_wins multiRoot
      (PSKC.mk none none (Encryption.mk (some ek1)) (MAC.mk (some mm1)) [])
      rfl).1 ek1 ek2 [] rfl,
   (C5_first_match_wins multiRoot
      (PSKC.mk none none (Encryption.mk (some ek1)) (MAC.mk (some mm1)) [])
      rfl).2 mm1 mm2 [] rfl⟩

/-- Claim C6: the container's version and id equal the root's `Version`
and `Id` attribute values verbatim, a missing attribute yielding an absent
field with the parse still succeeding. -/
theorem C6_root_attributes (root : Element) :
    ∃ P, PSKC.parse (Source.ok root) = .ok P ∧
      P.version = attrGet root "Version" ∧ P.id = attrGet root "Id" :=
  ⟨_, parse_ok root, rfl, rfl⟩

/-- Claim C7: the string accessor locates the first element matching the
path in document order; absence yields the absence indicator without
error, and a match with text yields its whitespace-trimmed text. -/
theorem C7_string_accessor (tree : Element) (path : List Seg) :
    (∀ ts, path.mapM resolveSeg = .ok ts →
        find tree path = .ok (findallResolved tree ts).head?) ∧
    (find tree path = .ok none → g_e_v tree path = .ok none) ∧
    (∀ e t, find tree path = .ok (some e) → e.text = some t →
        g_e_v tree path = .ok (some (pyStrip t))) := by
  refine ⟨?_, ?_, ?_⟩
  · intro ts hts
    have hts2 : List.mapM.loop resolveSeg path [] = Except.ok ts := hts
    simp [find, hts2, bind, Except.bind, pure, Except.pure]
  · intro hf
    simp [g_e_v, hf, bind, Except.bind, pure, Except.pure]
  · intro e t hf ht
    simp [g_e_v, hf, ht, bind, Except.bind, pure, Except.pure]

/-- Witness for C7 on a missing element and on text `" 42 "`. -/
theorem C7_string_accessor_witness :
    find treeBare fooPath =
      .ok (findallResolved treeBare [qname pskcNS "Foo"]).head? ∧
    g_e_v treeBare fooPath = .ok none ∧
    g_e_v treeInt fooPath = .ok (some "42") :=
  ⟨(C7_string_accessor treeBare fooPath).1 [qname pskcNS "Foo"] rfl,
   (C7_string_accessor treeBare fooPath).2.1 rfl,
   (C7_string_accessor treeInt fooPath).2.2 elInt " 42 " rfl rfl⟩

/-- Claim C8: a lookup whose path uses a prefix outside the five
registered ones fails fast with the path compiler's error instead of
silently matching an unqualified or differently-namespaced name. -/
theorem C8_unregistered_prefix (tree : Element) (path : List Seg) (s : Seg)
    (hs : s ∈ path) (p : String) (hp : s.pfx = some p)
    (hreg : namespaces.lookup p = none) :
    find tree path = .error .syntaxError ∧
    findall tree path = .error .syntaxError ∧
    g_e_v tree path = .error .syntaxError ∧
    g_e_i tree path = .error .syntaxError := by
  have hm := mapM_resolveSeg_error path s hs p hp hreg
  have hm2 : List.mapM.loop resolveSeg path [] = Except.error PyError.syntaxError := hm
  refine ⟨?_, ?_, ?_, ?_⟩
  · simp [find, hm2, bind, Except.bind]
  · simp [findall, hm2, bind, Except.bind]
  · simp [g_e_v, find, hm2, bind, Except.bind]
  · simp [g_e_i, find, hm2, bind, Except.bind]

/-- Witness for C8 with the unregistered prefix `foo`. -/
theorem C8_unregistered_prefix_witness :
    find treeBare badPath = .error .syntaxError ∧
    findall treeBare badPath = .error .syntaxError ∧
    g_e_v treeBare badPath = .error .syntaxError ∧
    g_e_i treeBare badPath = .error .syntaxError :=
  C8_unregistered_prefix treeBare badPath ⟨some "foo", "Bar"⟩
    (by simp [badPath]) "foo" rfl rfl

/-- Claim C9: parsing is deterministic in its input: two parses of the
same unchanged source agree, and on success the containers have identical
version, id, and keys. -/
theorem C9_parse_deterministic (src : Source) (P1 P2 : PSKC)
    (h1 : PSKC.parse src = .ok P1) (h2 : PSKC.parse src = .ok P2) :
    P1.version = P2.version ∧ P1.id = P2.id ∧ P1.keys = P2.keys := by
  rw [h1] at h2
  injection h2 with h
  subst h
  exact ⟨rfl, rfl, rfl⟩

/-- Witness for C9 on a concrete document parsed twice. -/
theorem C9_parse_deterministic_witness :
    (PSKC.mk (some "1.0") (some "abc123") (Encryption.mk none) (MAC.mk none)
        [Key.mk kp1, Key.mk kp2]).version =
      (PSKC.mk (some "1.0") (some "abc123") (Encryption.mk none) (MAC.mk none)
        [Key.mk kp1, Key.mk kp2]).version ∧
    (PSKC.mk (some "1.0") (some "abc123") (Encryption.mk none) (MAC.mk none)
        [Key.mk kp1, Key.mk kp2]).id =
      (PSKC.mk (some "1.0") (some "abc123") (Encryption.mk none) (MAC.mk none)
        [Key.mk kp1, Key.mk kp2]).id ∧
    (PSKC.mk (some "1.0") (some "abc123") (Encryption.mk none) (MAC.mk none)
        [Key.mk kp1, Key.mk kp2]).keys =
      (PSKC.mk (some "1.0") (some "abc123") (Encryption.mk none) (MAC.mk none)
        [Key.mk kp1, Key.mk kp2]).keys :=
  C9_parse_deterministic (Source.ok sampleRoot)
    (PSKC.mk (some "1.0") (some "abc123") (Encryption.mk none) (MAC.mk none)
      [Key.mk kp1, Key.mk kp2])
    (PSKC.mk (some "1.0") (some "abc123") (Encryption.mk none) (MAC.mk none)
      [Key.mk kp1, Key.mk kp2]) rfl rfl

/-- Claim C10: when the matched element exists but has no text at all, all
three typed accessors raise `AttributeError` from dereferencing the null
text, neither absence nor a conversion error. -/
theorem C10_null_text_attribute_error (tree : Element) (path : List Seg)
    (e : Element) (hf : find tree path = .ok (some e)) (ht : e.text = none) :
    g_e_v tree path = .error .attributeError ∧
    g_e_i tree path = .error .attributeError ∧
    ∀ (α : Type) (dparse : String → Except PyError α),
      g_e_d dparse tree path = .error .attributeError := by
  refine ⟨?_, ?_, ?_⟩
  · simp [g_e_v, hf, ht, bind, Except.bind]
  · simp [g_e_i, hf, ht, bind, Except.bind]
  · intro α dparse
    simp [g_e_d, hf, ht, bind, Except.bind]

/-- Witness for C10 on an empty element `<pskc:Foo/>`. -/
theorem C10_null_text_attribute_error_witness :
    g_e_v treeNil fooPath = .error .attributeError ∧
    g_e_i treeNil fooPath = .error .attributeError ∧
    g_e_d (fun _ => .ok 0) treeNil fooPath = .error .attributeError :=
  ⟨(C10_null_text_attribute_error treeNil fooPath elNil rfl rfl).1,
   (C10_null_text_attribute_error treeNil fooPath elNil rfl rfl).2.1,
   (C10_null_text_attribute_error treeNil fooPath elNil rfl rfl).2.2 Nat
     (fun _ => .ok 0)⟩
